import Mathlib

/-!
Verification of the qpdf-rs object model (src/object.rs and the crate's
document-level API) against its natural-language specification.

The embedding models a `QpdfObject` handle as a slot index into a document's
handle table together with the value it refers to, mirroring the C API's
`qpdf_oh` handle discipline that `src/object.rs` wraps: every fresh handle
receives the next unused slot index, `PartialEq` compares the raw slot
indices (`self.inner == other.inner`), and indirect objects additionally
carry an `(object_id, generation)` pair.
-/

set_option maxRecDepth 4000

namespace QpdfRs

/-- PDF object values, the closed thirteen-variant set of §3 of the spec and
the `QpdfObjectType` enum of src/object.rs.  String, name and operator
payloads are kept as raw byte lists (each entry a byte value `< 256`),
matching the C library's byte-string storage. -/
inductive PdfValue where
  | uninitialized
  | reserved
  | null
  | boolean (b : Bool)
  | integer (n : Int)
  | real (val : String)
  | string (bytes : List Nat)
  | name (bytes : List Nat)
  | array (children : List PdfValue)
  | dictionary (entries : List (String × PdfValue))
  | stream (dict : List (String × PdfValue)) (data : List Nat)
  | operator (bytes : List Nat)
  | inlineImage (bytes : List Nat)

/-- Document session state: the next unused handle-table slot, the next
unused indirect object id, and the indirect object table keyed by
`(object_id, generation)`. -/
structure Doc where
  nextSlot : Nat
  nextObjId : Nat
  table : List ((Nat × Nat) × PdfValue)

/-- A `QpdfObject` handle: `inner` is the `qpdf_oh` slot index (the field
compared by `PartialEq` in src/object.rs line 324), `value` the object value
the slot refers to, and `objgen` the `(object_id, generation)` pair carried
when the object is indirect (`none` for direct objects). -/
structure Obj where
  inner : Nat
  value : PdfValue
  objgen : Option (Nat × Nat)

/-- Allocation of a fresh handle slot for a value: every C-API call that
produces a handle returns the next unused `qpdf_oh` index. -/
def allocObj (d : Doc) (v : PdfValue) (og : Option (Nat × Nat)) : Doc × Obj :=
  ({ d with nextSlot := d.nextSlot + 1 }, ⟨d.nextSlot, v, og⟩)

/-- Embedding of `PartialEq for QpdfObject` (src/object.rs lines 322-326):
equality of handles is equality of the raw `inner` slot indices. -/
def qpdfEq (a b : Obj) : Bool :=
  a.inner == b.inner

/-- Embedding of `get_id` (src/object.rs lines 291-293, via
`qpdf_oh_get_object_id`): the object id of an indirect handle, `0` for a
direct one. -/
def get_id (h : Obj) : Nat :=
  match h.objgen with
  | some og => og.1
  | none => 0

/-- Embedding of `get_generation` (src/object.rs lines 295-297, via
`qpdf_oh_get_generation`): the generation of an indirect handle, `0` for a
direct one. -/
def get_generation (h : Obj) : Nat :=
  match h.objgen with
  | some og => og.2
  | none => 0

/-- Embedding of `make_indirect` (src/object.rs lines 181-188, delegating to
`qpdf_make_indirect_object` / `QPDF::makeIndirectObject`): the library
always allocates the next unused object id `(nextObjId, 0)`, copies the
current value into the object table under that key, and returns a fresh
handle bound to the new entry — also when the receiver is already indirect,
as the repository's own test asserts
(`assert_ne!(indirect.get_id(), obj.get_id())` on a stream handle in
test_qpdf_basic_objects). -/
def make_indirect (d : Doc) (h : Obj) : Doc × Obj :=
  let og := (d.nextObjId, 0)
  ({ nextSlot := d.nextSlot + 1
     nextObjId := d.nextObjId + 1
     table := (og, h.value) :: d.table },
   ⟨d.nextSlot, h.value, some og⟩)

/-- The `QpdfObjectType` enum of src/object.rs lines 6-21. -/
inductive QpdfObjectType where
  | uninitialized
  | reserved
  | null
  | boolean
  | integer
  | real
  | string
  | name
  | array
  | dictionary
  | stream
  | operator
  | inlineImage
deriving DecidableEq

/-- Numeric value of the C `qpdf_object_type_e` tag of a value, as laid out
in qpdf-c.h (`ot_uninitialized = 0` through `ot_inlineimage = 12`). -/
def typeTag : PdfValue → Nat
  | .uninitialized => 0
  | .reserved => 1
  | .null => 2
  | .boolean _ => 3
  | .integer _ => 4
  | .real _ => 5
  | .string _ => 6
  | .name _ => 7
  | .array _ => 8
  | .dictionary _ => 9
  | .stream _ _ => 10
  | .operator _ => 11
  | .inlineImage _ => 12

/-- The intended type of each value variant. -/
def typeOf : PdfValue → QpdfObjectType
  | .uninitialized => .uninitialized
  | .reserved => .reserved
  | .null => .null
  | .boolean _ => .boolean
  | .integer _ => .integer
  | .real _ => .real
  | .string _ => .string
  | .name _ => .name
  | .array _ => .array
  | .dictionary _ => .dictionary
  | .stream _ _ => .stream
  | .operator _ => .operator
  | .inlineImage _ => .inlineImage

/-- Embedding of `QpdfObjectType::from_qpdf_enum` (src/object.rs lines
24-41): decodes the C type tag; the `_ => panic!` branch of the Rust match
is modelled as `none`. -/
def from_qpdf_enum : Nat → Option QpdfObjectType
  | 0 => some .uninitialized
  | 1 => some .reserved
  | 2 => some .null
  | 3 => some .boolean
  | 4 => some .integer
  | 5 => some .real
  | 6 => some .string
  | 7 => some .name
  | 8 => some .array
  | 9 => some .dictionary
  | 10 => some .stream
  | 11 => some .operator
  | 12 => some .inlineImage
  | _ => none

/-- Embedding of `get_type` (src/object.rs lines 190-192): reads the C type
tag of the handle's value and decodes it with `from_qpdf_enum`; `none`
would mean the panic branch was taken. -/
def get_type (h : Obj) : Option QpdfObjectType :=
  from_qpdf_enum (typeTag h.value)

/-! ## Byte-level text encodings

`as_string`, `as_name` and the unparse functions move string data across
the C boundary; these helpers embed the encodings involved: UTF-8
encoding/decoding (the decoder with Rust's `to_string_lossy` replacement
semantics, src/object.rs lines 258-272), UTF-16BE with BOM (the storage
format `qpdf_oh_new_unicode_string` produces), and hex rendering. -/

/-- UTF-8 encoding of one Unicode scalar value. -/
def utf8EncodeChar (n : Nat) : List Nat :=
  if n < 0x80 then [n]
  else if n < 0x800 then [0xC0 + n / 64, 0x80 + n % 64]
  else if n < 0x10000 then [0xE0 + n / 4096, 0x80 + n / 64 % 64, 0x80 + n % 64]
  else [0xF0 + n / 262144, 0x80 + n / 4096 % 64, 0x80 + n / 64 % 64, 0x80 + n % 64]

/-- UTF-8 byte encoding of a Lean string (a Rust `&str` is always valid
UTF-8, so a string handed to the binding is exactly this byte sequence). -/
def utf8EncodeStr (s : String) : List Nat :=
  (s.data.map (fun c => utf8EncodeChar c.toNat)).flatten

/-- UTF-16BE code-unit bytes of one Unicode scalar value (surrogate pair
for the supplementary planes). -/
def utf16beChar (n : Nat) : List Nat :=
  if n < 0x10000 then [n / 256, n % 256]
  else
    let m := n - 0x10000
    let hi := 0xD800 + m / 1024
    let lo := 0xDC00 + m % 1024
    [hi / 256, hi % 256, lo / 256, lo % 256]

/-- UTF-16BE-with-BOM byte encoding of a string: the storage format the
qpdf library uses for strings created from UTF-8 text
(`QUtil::utf8_to_utf16` prepends the big-endian BOM `fe ff`). -/
def utf8ToUtf16be (s : String) : List Nat :=
  0xfe :: 0xff :: (s.data.map (fun c => utf16beChar c.toNat)).flatten

/-- True for UTF-8 continuation bytes `80..BF`. -/
def isCont (b : Nat) : Bool :=
  0x80 ≤ b && b < 0xC0

/-- The Unicode replacement character U+FFFD. -/
def repChar : Char := Char.ofNat 0xFFFD

/-- Fueled worker for `utf8Lossy`; each step consumes at least one byte.
The branch structure follows Rust's `from_utf8` validation exactly,
including how many bytes an invalid sequence consumes (the maximal valid
prefix of the attempted sequence, at least the leading byte). -/
def lossyGo : Nat → List Nat → List Char
  | 0, _ => []
  | _, [] => []
  | f + 1, b :: rest =>
    if b < 0x80 then Char.ofNat b :: lossyGo f rest
    else if b < 0xC2 then repChar :: lossyGo f rest
    else if b < 0xE0 then
      match rest with
      | [] => [repChar]
      | c1 :: r2 =>
        if isCont c1 then Char.ofNat ((b - 0xC0) * 64 + (c1 - 0x80)) :: lossyGo f r2
        else repChar :: lossyGo f (c1 :: r2)
    else if b < 0xF0 then
      match rest with
      | [] => [repChar]
      | c1 :: r2 =>
        let ok1 : Bool :=
          if b == 0xE0 then 0xA0 ≤ c1 && c1 < 0xC0
          else if b == 0xED then 0x80 ≤ c1 && c1 < 0xA0
          else isCont c1
        if ok1 then
          match r2 with
          | [] => [repChar]
          | c2 :: r3 =>
            if isCont c2 then
              Char.ofNat ((b - 0xE0) * 4096 + (c1 - 0x80) * 64 + (c2 - 0x80)) :: lossyGo f r3
            else repChar :: lossyGo f (c2 :: r3)
        else repChar :: lossyGo f (c1 :: r2)
    else if b < 0xF5 then
      match rest with
      | [] => [repChar]
      | c1 :: r2 =>
        let ok1 : Bool :=
          if b == 0xF0 then 0x90 ≤ c1 && c1 < 0xC0
          else if b == 0xF4 then 0x80 ≤ c1 && c1 < 0x90
          else isCont c1
        if ok1 then
          match r2 with
          | [] => [repChar]
          | c2 :: r3 =>
            if isCont c2 then
              match r3 with
              | [] => [repChar]
              | c3 :: r4 =>
                if isCont c3 then
                  Char.ofNat
                      ((b - 0xF0) * 262144 + (c1 - 0x80) * 4096 + (c2 - 0x80) * 64 + (c3 - 0x80)) ::
                    lossyGo f r4
                else repChar :: lossyGo f (c3 :: r4)
            else repChar :: lossyGo f (c2 :: r3)
        else repChar :: lossyGo f (c1 :: r2)
    else repChar :: lossyGo f rest

/-- Rust's `String::from_utf8_lossy` / `CStr::to_string_lossy` decoding:
valid UTF-8 sequences decode to their scalar values, each maximal invalid
subpart is replaced by U+FFFD. -/
def utf8Lossy (bs : List Nat) : List Char :=
  lossyGo (bs.length + 1) bs

/-- The portion of a byte buffer a `CStr::from_ptr` read sees: everything
up to (excluding) the first NUL byte. -/
def cStrBytes (bs : List Nat) : List Nat :=
  bs.takeWhile (fun b => b != 0)

/-- Fueled UTF-16BE decoder worker following the accumulator loop of
`QUtil::utf16_to_utf8`: big-endian code-unit pairs; a high surrogate is
held in the pending accumulator and emits nothing by itself (so a high
surrogate not followed by a low one is dropped); a low surrogate completes
the pending accumulator, or emits the loop's zero codepoint when nothing
is pending; a trailing odd byte ends the conversion. -/
def utf16Go : Nat → Nat → List Nat → List Nat
  | 0, _, _ => []
  | _, _, [] => []
  | _, _, [_] => []
  | f + 1, pend, b1 :: b2 :: rest =>
    let bits := b1 * 256 + b2
    if 0xD800 ≤ bits && bits < 0xDC00 then
      utf16Go f (0x10000 + bits % 1024 * 1024) rest
    else if 0xDC00 ≤ bits && bits < 0xE000 then
      (if pend != 0 then pend + bits % 1024 else 0) :: utf16Go f 0 rest
    else bits :: utf16Go f 0 rest

/-- UTF-16BE bytes to UTF-8 bytes (`QUtil::utf16_to_utf8` without the BOM,
which the caller strips): decode to codepoints, re-encode as UTF-8. -/
def utf16beToUtf8 (bs : List Nat) : List Nat :=
  ((utf16Go bs.length 0 bs).map utf8EncodeChar).flatten

/-- True when the byte buffer starts with the UTF-16BE byte-order mark
`fe ff` (`QUtil::is_utf16`; version 10.5.0 recognizes only the big-endian
mark). -/
def startsWithBOM : List Nat → Bool
  | 0xfe :: 0xff :: _ => true
  | _ => false

/-- PDFDoc-to-Unicode mapping of the control range `0x18..0x1f`: breve,
caron, circumflex, dot above, double acute, ogonek, ring above, tilde. -/
def pdfDocLowTable : List Nat :=
  [0x02d8, 0x02c7, 0x02c6, 0x02d9, 0x02dd, 0x02db, 0x02da, 0x02dc]

/-- PDFDoc-to-Unicode mapping of the range `0x7f..0xa0`: undefined slots
map to U+FFFD, the rest to the PDFDoc punctuation, ligature and accented
letters, ending with the Euro sign at `0xa0`. -/
def pdfDocHighTable : List Nat :=
  [0xfffd, 0x2022, 0x2020, 0x2021, 0x2026, 0x2014, 0x2013, 0x0192, 0x2044, 0x2039,
   0x203a, 0x2212, 0x2030, 0x201e, 0x201c, 0x201d, 0x2018, 0x2019, 0x201a, 0x2122,
   0xfb01, 0xfb02, 0x0141, 0x0152, 0x0160, 0x0178, 0x017d, 0x0131, 0x0142, 0x0153,
   0x0161, 0x017e, 0xfffd, 0x20ac]

/-- Unicode codepoint of one PDFDoc-encoded byte: the two special ranges
are table-mapped, every other byte (including all of `0xa1..0xff`) is its
own codepoint. -/
def pdfDocMapChar (b : Nat) : Nat :=
  if 24 ≤ b ∧ b ≤ 31 then (pdfDocLowTable.get? (b - 24)).getD 0xfffd
  else if 127 ≤ b ∧ b ≤ 160 then (pdfDocHighTable.get? (b - 127)).getD 0xfffd
  else b

/-- PDFDoc-encoded bytes to UTF-8 bytes (`QUtil::pdf_doc_to_utf8`): each
byte is mapped to its Unicode codepoint and re-encoded as UTF-8, so the
output is always valid UTF-8 and a zero byte appears exactly for a zero
source byte. -/
def pdfDocToUtf8 (bs : List Nat) : List Nat :=
  (bs.map (fun b => utf8EncodeChar (pdfDocMapChar b))).flatten

/-- The UTF-8 value the C call `qpdf_oh_get_utf8_value` produces for a
string object's raw bytes (`QPDF_String::getUTF8Val`): BOM-marked UTF-16
content is transcoded from UTF-16BE, everything else is transcoded from
PDFDoc encoding — either way the buffer handed across the boundary is
already valid UTF-8. -/
def utf8ValueBytes (bs : List Nat) : List Nat :=
  if startsWithBOM bs then utf16beToUtf8 (bs.drop 2) else pdfDocToUtf8 bs

/-- Lowercase hex digit for a value `< 16`. -/
def hexDigit (n : Nat) : Char :=
  if n < 10 then Char.ofNat (48 + n) else Char.ofNat (87 + n % 16)

/-- Two lowercase hex digits of a byte. -/
def hexByte (b : Nat) : List Char :=
  [hexDigit (b / 16 % 16), hexDigit (b % 16)]

/-- The hex-angle-bracket rendering of a byte string, `<01020304>`. -/
def hexAngle (bs : List Nat) : String :=
  "<" ++ String.mk (bs.map hexByte).flatten ++ ">"

/-! ## Type predicates and scalar accessors (src/object.rs lines 202-280)

The Rust accessors are infallible in type: `as_bool` returns `bool`,
`as_name` and `as_string` return `String`, `as_binary_string` returns
`Vec<u8>` — no error value can be produced.  What a mismatched call does
in the pinned qpdf 10.5.0 depends on the object: `typeWarning` checks
whether the object carries a description (objects read from a parsed
document do, programmatically constructed ones do not).  A described
object gets a warning recorded against its owning `QPDF` and the accessor
returns its documented fallback — `getBoolValue` `false`, `getName` the
dummy `/QPDFFakeName`, `getUTF8Value` the empty string,
`getBinaryStringValue` the empty buffer.  For an object without a
description the warning is thrown as a C++ exception, and the pre-10.6 C
API does not trap exceptions in these accessors, so the process aborts.
The accessors below take that description flag explicitly and return a
`CallOutcome`, whose `aborts` constructor is the untrapped-exception
path. -/

/-- Outcome of an accessor call across the C boundary in qpdf 10.5.0:
either the call returns a value, or a C++ exception escapes the pre-10.6
C API untrapped and the process aborts. -/
inductive CallOutcome (α : Type) where
  | returns (v : α)
  | aborts
deriving DecidableEq

/-- Embedding of `is_bool` (src/object.rs lines 202-204). -/
def is_bool (h : Obj) : Bool :=
  match h.value with
  | .boolean _ => true
  | _ => false

/-- Embedding of `is_name` (src/object.rs lines 214-216). -/
def is_name (h : Obj) : Bool :=
  match h.value with
  | .name _ => true
  | _ => false

/-- Embedding of `is_string` (src/object.rs lines 218-220). -/
def is_string (h : Obj) : Bool :=
  match h.value with
  | .string _ => true
  | _ => false

/-- Embedding of `as_bool` (src/object.rs lines 254-256, via
`qpdf_oh_get_bool_value`): the boolean value of a boolean handle; on a
mismatched handle, the warned default `false` when the object is
described, the untrapped-exception abort otherwise. -/
def as_bool (described : Bool) (h : Obj) : CallOutcome Bool :=
  match h.value with
  | .boolean b => .returns b
  | _ => if described then .returns false else .aborts

/-- Embedding of `as_name` (src/object.rs lines 258-264): for a name
handle the C side hands back a NUL-terminated copy of the raw name bytes,
which `CStr::from_ptr` truncates at the first NUL and `to_string_lossy`
decodes with U+FFFD replacement; on a mismatched handle, the warned dummy
`/QPDFFakeName` when the object is described, the abort otherwise. -/
def as_name (described : Bool) (h : Obj) : CallOutcome String :=
  match h.value with
  | .name bs => .returns (String.mk (utf8Lossy (cStrBytes bs)))
  | _ => if described then .returns "/QPDFFakeName" else .aborts

/-- Embedding of `as_string` (src/object.rs lines 266-272, via
`qpdf_oh_get_utf8_value`): for a string handle the C side transcodes the
stored bytes to UTF-8 (`utf8ValueBytes`) and hands back a NUL-terminated
copy, which `CStr::from_ptr` truncates at the first NUL and
`to_string_lossy` decodes (with U+FFFD replacement, though the transcoded
buffer is already valid UTF-8); on a mismatched handle, the warned default
empty string when the object is described, the abort otherwise. -/
def as_string (described : Bool) (h : Obj) : CallOutcome String :=
  match h.value with
  | .string bs => .returns (String.mk (utf8Lossy (cStrBytes (utf8ValueBytes bs))))
  | _ => if described then .returns "" else .aborts

/-- Embedding of `as_binary_string` (src/object.rs lines 274-280, via
`qpdf_oh_get_binary_string_value`) at a string handle: the exact byte
content with an explicit length — no NUL truncation, no transcoding, no
decoding.  A mismatched call is subject to the same warn-or-abort split as
the other accessors, with the empty buffer as the warned default; this
development only ever applies the accessor to string handles, where the
call always returns the bytes. -/
def as_binary_string (h : Obj) : List Nat :=
  match h.value with
  | .string bs => bs
  | _ => []

/-! ## Unparsing (Display and `to_binary`)

`fmt::Display for QpdfObject` (src/object.rs lines 342-352) delegates to
`qpdf_oh_unparse`; `to_binary` (lines 194-200) delegates to
`qpdf_oh_unparse_binary`.  The rendering below follows the library's
textual object syntax as fixed by §6 of the spec and the repository's
tests: `true`/`false`, `null`, decimal integers, the stored decimal string
for reals, `(...)` or `<...>` strings, `[ ... ]` arrays, `<< ... >>`
dictionaries, and `"<id> <gen> R"` for indirect handles. -/

/-- True for bytes a literal string renders verbatim: printable ASCII that
needs no escaping. -/
def printableByte (b : Nat) : Bool :=
  32 ≤ b && b ≤ 126 && b != 40 && b != 41 && b != 92

/-- Modelled from the spec: the textual rendering of a direct value by
`qpdf_oh_unparse` (the qpdf library's `unparse`, outside this repository),
following the object-literal grammar of §6 and the concrete outputs the
repository's tests assert (`"true"`, `"null"`, `"1234567890"`, `"1.234"`,
`"[ 1 2 3 ]"`, `"(hello)"`, `"<feff043f04400438043204350442>"`). -/
def unparseVal : PdfValue → String
  | .uninitialized => ""
  | .reserved => ""
  | .null => "null"
  | .boolean b => if b then "true" else "false"
  | .integer n => toString n
  | .real s => s
  | .name bs => String.mk (utf8Lossy bs)
  | .string bs =>
    if bs.all printableByte then
      "(" ++ String.mk (bs.map Char.ofNat) ++ ")"
    else hexAngle bs
  | .array xs =>
    "[ " ++ String.intercalate " " (xs.attach.map fun ⟨x, hx⟩ => unparseVal x) ++ " ]"
  | .dictionary es =>
    "<< " ++
        String.intercalate " "
          (es.attach.map fun ⟨⟨k, v⟩, he⟩ => k ++ " " ++ unparseVal v) ++
      " >>"
  | .stream _ _ => ""
  | .operator bs => String.mk (utf8Lossy bs)
  | .inlineImage bs => String.mk (utf8Lossy bs)
decreasing_by
  · have h1 := List.sizeOf_lt_of_mem hx
    simp only [PdfValue.array.sizeOf_spec]
    omega
  · have h1 := List.sizeOf_lt_of_mem he
    simp only [Prod.mk.sizeOf_spec] at h1
    simp only [PdfValue.dictionary.sizeOf_spec]
    omega

/-- Embedding of `fmt::Display for QpdfObject` (src/object.rs lines
342-352): an indirect handle renders as `"<id> <gen> R"`, a direct one as
its textual value. -/
def to_string (h : Obj) : String :=
  match h.objgen with
  | some og => toString og.1 ++ " " ++ toString og.2 ++ " R"
  | none => unparseVal h.value

/-- Embedding of `to_binary` (src/object.rs lines 194-200, via
`qpdf_oh_unparse_binary`): like `to_string`, except string values are
always rendered in hex-angle-bracket form. -/
def to_binary (h : Obj) : String :=
  match h.value with
  | .string bs => hexAngle bs
  | _ => to_string h

/-! ## Document-level constructors and object access (§4.4)

These functions live in the crate's lib.rs, which is not under src/; they
are modelled from the spec: each constructor creates a fresh direct graph
node owned by the calling document, and `get_object_by_id` resolves an
indirect reference, returning `none` when no object with that identity
exists. -/

/-- Modelled from the spec: `new_null` (lib.rs, not under src/) creates a
fresh direct null object. -/
def new_null (d : Doc) : Doc × Obj :=
  allocObj d .null none

/-- Modelled from the spec: `new_bool` (lib.rs, not under src/) creates a
fresh direct boolean object. -/
def new_bool (d : Doc) (b : Bool) : Doc × Obj :=
  allocObj d (.boolean b) none

/-- Modelled from the spec: `new_integer` (lib.rs, not under src/) creates
a fresh direct integer object. -/
def new_integer (d : Doc) (n : Int) : Doc × Obj :=
  allocObj d (.integer n) none

/-- Modelled from the spec: `new_name` (lib.rs, not under src/) creates a
fresh direct name object. -/
def new_name (d : Doc) (s : String) : Doc × Obj :=
  allocObj d (.name (utf8EncodeStr s)) none

/-- Modelled from the spec: `new_string` (lib.rs, not under src/) creates a
fresh direct string object holding the UTF-8 bytes of the text. -/
def new_string (d : Doc) (s : String) : Doc × Obj :=
  allocObj d (.string (utf8EncodeStr s)) none

/-- Modelled from the spec: `new_binary_string` (lib.rs, not under src/)
creates a fresh direct string object holding exactly the given bytes. -/
def new_binary_string (d : Doc) (bs : List Nat) : Doc × Obj :=
  allocObj d (.string bs) none

/-- Modelled from the spec: `new_utf8_string` (lib.rs, not under src/,
via `qpdf_oh_new_unicode_string`) creates a fresh direct string object
whose stored bytes are the UTF-16BE-with-BOM encoding of the text, not its
UTF-8 bytes. -/
def new_utf8_string (d : Doc) (s : String) : Doc × Obj :=
  allocObj d (.string (utf8ToUtf16be s)) none

/-- Round `num / den` (with `den > 0`) to the nearest integer, ties to
even — the rounding `printf`-style fixed formatting applies. -/
def roundHalfEven (num : Int) (den : Nat) : Int :=
  let q := num.ediv den
  let r := num.emod den
  if 2 * r < (den : Int) then q
  else if (den : Int) < 2 * r then q + 1
  else if q.emod 2 = 0 then q else q + 1

/-- Fixed-point decimal rendering of the integer `m` scaled by `10 ^ p`:
the digit string with `p` digits after the decimal point (none when
`p = 0`). -/
def formatFixed (m : Int) (p : Nat) : String :=
  if p = 0 then toString m
  else
    let a := m.natAbs
    let ip := a / 10 ^ p
    let fp := a % 10 ^ p
    let fs := toString fp
    let fs := String.mk (List.replicate (p - fs.length) '0') ++ fs
    (if m < 0 then "-" else "") ++ toString ip ++ "." ++ fs

/-- Modelled from the spec: `new_real(value, decimals)` (lib.rs, not under
src/, via `qpdf_oh_new_real_from_double` / `QUtil::double_to_string`)
creates a fresh direct real object storing the value formatted as a
decimal string with exactly `decimals` digits after the point.  The double
argument is modelled as the exact decimal `num / 10 ^ den10` it is written
as, and the formatting rounds half to even, which agrees with the
spec-mandated output `to_string(new_real(1.2345, 3)) = "1.234"`. -/
def new_real (d : Doc) (num : Int) (den10 : Nat) (decimals : Nat) : Doc × Obj :=
  allocObj d (.real (formatFixed (roundHalfEven (num * 10 ^ decimals) (10 ^ den10)) decimals)) none

/-- Modelled from the spec: `get_object_by_id(id, generation)` (lib.rs, not
under src/) resolves an indirect reference against the document's object
table and returns `none` when no object with that identity exists, never
constructing a placeholder. -/
def get_object_by_id (d : Doc) (id gen : Nat) : Option PdfValue :=
  (d.table.find? (fun p => p.1.1 == id && p.1.2 == gen)).map (fun p => p.2)

/-- Modelled from the spec: `QpdfArray::get(i)` (array.rs, not under src/)
returns the `i`-th child of an array handle, `none` when `i` is out of
range or the handle is not an array. -/
def arr_get (h : Obj) (i : Nat) : Option PdfValue :=
  match h.value with
  | .array xs => xs.get? i
  | _ => none

/-- Modelled from the spec: `QpdfDictionary::get(key)` (dictionary code not
under src/) returns the child stored under the key, `none` when the key is
absent or the handle is not a dictionary. -/
def dict_get (h : Obj) (k : String) : Option PdfValue :=
  match h.value with
  | .dictionary es => (es.find? (fun e => e.1 == k)).map (fun e => e.2)
  | _ => none

/-! ## Textual object parsing (§4.4, §6)

`parse_object` lives in the crate's lib.rs, which is not under src/; the
parser below is modelled from the spec: a total recursive-descent parser
for the object-literal grammar of §6 (`true`/`false`, `null`, decimal
integers and reals, `/Name`, `(string)` and `<hex>` strings, `[ ... ]`
arrays, `<< /K V ... >>` dictionaries) whose failures are `ParseError`
values carrying a position and a message, never exceptions, and which
leaves the document untouched on failure. -/

/-- A parse failure: position in the input and a human-readable message. -/
structure ParseError where
  pos : Nat
  msg : String
deriving DecidableEq

/-- PDF whitespace characters. -/
def isWs (c : Char) : Bool :=
  c == ' ' || c == '\n' || c == '\r' || c == '\t' || c == '\x0c' || c == '\x00'

/-- PDF delimiter characters. -/
def isDelim (c : Char) : Bool :=
  c == '(' || c == ')' || c == '<' || c == '>' || c == '[' || c == ']' ||
    c == '{' || c == '}' || c == '/' || c == '%'

/-- Regular characters: everything that is neither whitespace nor a
delimiter. -/
def isRegular (c : Char) : Bool :=
  !(isWs c || isDelim c)

/-- Skip leading whitespace, advancing the position counter. -/
def skipWs : List Char → Nat → List Char × Nat
  | [], p => ([], p)
  | c :: cs, p => if isWs c then skipWs cs (p + 1) else (c :: cs, p)

/-- Split off the longest prefix of regular characters. -/
def takeRegular : List Char → Nat → List Char × List Char × Nat
  | [], p => ([], [], p)
  | c :: cs, p =>
    if isRegular c then
      let (tok, rest, p') := takeRegular cs (p + 1)
      (c :: tok, rest, p')
    else ([], c :: cs, p)

/-- True for a character that can start a numeric token. -/
def numStart (c : Char) : Bool :=
  c.isDigit || c == '+' || c == '-' || c == '.'

/-- Digits of a token interpreted as a natural number. -/
def digitsToNat (cs : List Char) : Nat :=
  cs.foldl (fun a c => a * 10 + (c.toNat - 48)) 0

/-- Classify a numeric token: an integer or a real literal, or a syntax
error for malformed tokens such as `--` or `1.2.3`. -/
def classifyNumber (tok : List Char) (p : Nat) : Except ParseError PdfValue :=
  let (sign, body) :=
    match tok with
    | '+' :: r => (1, r)
    | '-' :: r => (-1, r)
    | r => ((1 : Int), r)
  if body.any (fun c => !(c.isDigit || c == '.')) then
    .error ⟨p, "invalid number"⟩
  else if !(body.any Char.isDigit) then
    .error ⟨p, "invalid number"⟩
  else if body.contains '.' then
    if (body.filter (fun c => c == '.')).length > 1 then
      .error ⟨p, "invalid number"⟩
    else .ok (.real (String.mk tok))
  else .ok (.integer (sign * (digitsToNat body : Int)))

/-- Value of a hex digit character, if it is one. -/
def hexVal (c : Char) : Option Nat :=
  if c.isDigit then some (c.toNat - 48)
  else if 'a' ≤ c && c ≤ 'f' then some (c.toNat - 87)
  else if 'A' ≤ c && c ≤ 'F' then some (c.toNat - 70)
  else none

/-- Read the body of a hex string up to the closing `>`; the digit pairs
become bytes, an odd final digit is padded with zero per the PDF grammar,
a bad character or missing terminator is an error. -/
def readHex : List Char → Nat → Except ParseError (List Nat × List Char × Nat)
  | [], p => .error ⟨p, "unterminated hex string"⟩
  | c :: cs, p =>
    if c == '>' then .ok ([], cs, p + 1)
    else if isWs c then readHex cs (p + 1)
    else
      match hexVal c with
      | none => .error ⟨p, "invalid character in hex string"⟩
      | some hi =>
        match readHexLow cs (p + 1) hi with
        | .error e => .error e
        | .ok (bs, rest, p') => .ok (bs, rest, p')
where
  /-- Read the second digit of a pair (or the terminator, padding with 0). -/
  readHexLow : List Char → Nat → Nat → Except ParseError (List Nat × List Char × Nat)
    | [], p, _ => .error ⟨p, "unterminated hex string"⟩
    | c :: cs, p, hi =>
      if c == '>' then .ok ([hi * 16], cs, p + 1)
      else if isWs c then readHexLow cs (p + 1) hi
      else
        match hexVal c with
        | none => .error ⟨p, "invalid character in hex string"⟩
        | some lo =>
          match readHex cs (p + 1) with
          | .error e => .error e
          | .ok (bs, rest, p') => .ok ((hi * 16 + lo) :: bs, rest, p')

/-- Read the body of a literal `( ... )` string up to the balancing `)`,
tracking nesting depth; a backslash takes the following character
literally; running out of input is an error. -/
def readLit : List Char → Nat → Nat → Except ParseError (List Nat × List Char × Nat)
  | [], p, _ => .error ⟨p, "unterminated string"⟩
  | c :: cs, p, depth =>
    if c == ')' then
      if depth = 0 then .ok ([], cs, p + 1)
      else
        match readLit cs (p + 1) (depth - 1) with
        | .error e => .error e
        | .ok (bs, rest, p') => .ok (utf8EncodeChar c.toNat ++ bs, rest, p')
    else if c == '(' then
      match readLit cs (p + 1) (depth + 1) with
      | .error e => .error e
      | .ok (bs, rest, p') => .ok (utf8EncodeChar c.toNat ++ bs, rest, p')
    else if c == '\\' then
      match cs with
      | [] => .error ⟨p + 1, "unterminated string"⟩
      | e :: cs' =>
        match readLit cs' (p + 2) depth with
        | .error err => .error err
        | .ok (bs, rest, p') => .ok (utf8EncodeChar e.toNat ++ bs, rest, p')
    else
      match readLit cs (p + 1) depth with
      | .error e => .error e
      | .ok (bs, rest, p') => .ok (utf8EncodeChar c.toNat ++ bs, rest, p')

mutual

/-- Parse one object from the input; the fuel argument strictly decreases
on every nested parse, making the parser total. -/
def parseVal : Nat → List Char → Nat → Except ParseError (PdfValue × List Char × Nat)
  | 0, _, p => .error ⟨p, "nesting too deep"⟩
  | fuel + 1, cs, p =>
    let (cs, p) := skipWs cs p
    match cs with
    | [] => .error ⟨p, "unexpected end of input"⟩
    | 't' :: 'r' :: 'u' :: 'e' :: rest => .ok (.boolean true, rest, p + 4)
    | 'f' :: 'a' :: 'l' :: 's' :: 'e' :: rest => .ok (.boolean false, rest, p + 5)
    | 'n' :: 'u' :: 'l' :: 'l' :: rest => .ok (.null, rest, p + 4)
    | '/' :: rest =>
      let (tok, rest', p') := takeRegular rest (p + 1)
      .ok (.name (47 :: (tok.map (fun c => utf8EncodeChar c.toNat)).flatten), rest', p')
    | '(' :: rest =>
      match readLit rest (p + 1) 0 with
      | .error e => .error e
      | .ok (bs, rest', p') => .ok (.string bs, rest', p')
    | '<' :: '<' :: rest => parsePairs fuel rest (p + 2) []
    | '<' :: rest =>
      match readHex rest (p + 1) with
      | .error e => .error e
      | .ok (bs, rest', p') => .ok (.string bs, rest', p')
    | '[' :: rest => parseItems fuel rest (p + 1) []
    | c :: rest =>
      if numStart c then
        let (tok, rest', p') := takeRegular (c :: rest) p
        match classifyNumber tok p with
        | .error e => .error e
        | .ok v => .ok (v, rest', p')
      else .error ⟨p, "unexpected character"⟩

/-- Parse the remaining elements of an array up to the closing `]`. -/
def parseItems (fuel : Nat) (cs : List Char) (p : Nat) (acc : List PdfValue) :
    Except ParseError (PdfValue × List Char × Nat) :=
  match fuel with
  | 0 => .error ⟨p, "nesting too deep"⟩
  | fuel + 1 =>
    let (cs, p) := skipWs cs p
    match cs with
    | [] => .error ⟨p, "unterminated array"⟩
    | ']' :: rest => .ok (.array acc.reverse, rest, p + 1)
    | _ =>
      match parseVal fuel cs p with
      | .error e => .error e
      | .ok (v, rest, p') => parseItems fuel rest p' (v :: acc)

/-- Parse the remaining key-value pairs of a dictionary up to the closing
`>>`; a key that is not a name is an error. -/
def parsePairs (fuel : Nat) (cs : List Char) (p : Nat) (acc : List (String × PdfValue)) :
    Except ParseError (PdfValue × List Char × Nat) :=
  match fuel with
  | 0 => .error ⟨p, "nesting too deep"⟩
  | fuel + 1 =>
    let (cs, p) := skipWs cs p
    match cs with
    | [] => .error ⟨p, "unterminated dictionary"⟩
    | '>' :: '>' :: rest => .ok (.dictionary acc.reverse, rest, p + 2)
    | '/' :: rest =>
      let (tok, rest', p') := takeRegular rest (p + 1)
      match parseVal fuel rest' p' with
      | .error e => .error e
      | .ok (v, rest'', p'') =>
        parsePairs fuel rest'' p'' (("/" ++ String.mk tok, v) :: acc)
    | _ => .error ⟨p, "dictionary key must be a name"⟩

end

/-- Modelled from the spec: the pure part of `parse_object` — parse exactly
one object from the text, requiring only whitespace after it. -/
def parseTop (t : String) : Except ParseError PdfValue :=
  let cs := t.data
  match parseVal (2 * cs.length + 16) cs 0 with
  | .error e => .error e
  | .ok (v, rest, p) =>
    let (rest', p') := skipWs rest p
    match rest' with
    | [] => .ok v
    | _ => .error ⟨p', "trailing data after object"⟩

/-- Modelled from the spec: `parse_object(text)` (lib.rs, not under src/)
parses one PDF object from its textual syntax; on success a fresh direct
handle is allocated in the document, on failure the `ParseError` is
returned as a value and the document is handed back unchanged. -/
def parse_object (d : Doc) (t : String) : Except ParseError Obj × Doc :=
  match parseTop t with
  | .ok v =>
    let (d', o) := allocObj d v none
    (.ok o, d')
  | .error e => (.error e, d)

/-! ## Helper lemmas -/

/-- C1 counterexample: the claim that every mismatched scalar access fails
with a TypeMismatch error is false on the code.  The accessors of
src/object.rs are infallible in type — `as_bool` returns a plain `bool` —
so at the concrete mismatched input of a null handle, `as_bool` either
silently returns the default value `false` (a described object: the
library's warning path) or makes the process abort through the untrapped
exception (any other handle); in neither case does a TypeMismatch error
value exist. -/
theorem c1_counterexample :
    as_bool true ⟨0, PdfValue.null, none⟩ = CallOutcome.returns false ∧
      as_bool false ⟨0, PdfValue.null, none⟩ = CallOutcome.aborts :=
  ⟨rfl, rfl⟩

/-- C1 (amended): the scalar accessors of src/object.rs (`as_bool`,
`as_name`, `as_string`) can never produce a TypeMismatch error — their
Rust signatures return plain values.  On a mismatched handle the
behaviour is the panic/default split §9 of the spec records: when the
object carries a description (objects read from a parsed document), the
library records a type warning and the accessor silently returns the
documented default (`false`, `/QPDFFakeName`, the empty string); when it
does not, qpdf 10.5.0's exception escapes the pre-10.6 C API untrapped
and the process aborts.  A matched-type access returns a value on both
paths. -/
theorem c1_accessor_mismatch_split (h : Obj) :
    (is_bool h = false →
        as_bool true h = CallOutcome.returns false ∧ as_bool false h = CallOutcome.aborts) ∧
      (is_name h = false →
        as_name true h = CallOutcome.returns "/QPDFFakeName" ∧
          as_name false h = CallOutcome.aborts) ∧
      (is_string h = false →
        as_string true h = CallOutcome.returns "" ∧ as_string false h = CallOutcome.aborts) ∧
      (∀ described : Bool,
        (is_bool h = true → ∃ b, as_bool described h = CallOutcome.returns b) ∧
          (is_name h = true → ∃ s, as_name described h = CallOutcome.returns s) ∧
          (is_string h = true → ∃ s, as_string described h = CallOutcome.returns s)) := by
  obtain ⟨i, v, og⟩ := h
  cases v <;> simp [is_bool, is_name, is_string, as_bool, as_name, as_string]

/-- C1 witness: the amended theorem applied to a concrete mismatched
integer handle, on both sides of the description split. -/
theorem c1_witness :
    as_bool true ⟨0, PdfValue.integer 7, none⟩ = CallOutcome.returns false ∧
      as_bool false ⟨0, PdfValue.integer 7, none⟩ = CallOutcome.aborts ∧
      as_name true ⟨0, PdfValue.integer 7, none⟩ = CallOutcome.returns "/QPDFFakeName" ∧
      as_name false ⟨0, PdfValue.integer 7, none⟩ = CallOutcome.aborts ∧
      as_string true ⟨0, PdfValue.integer 7, none⟩ = CallOutcome.returns "" ∧
      as_string false ⟨0, PdfValue.integer 7, none⟩ = CallOutcome.aborts :=
  ⟨((c1_accessor_mismatch_split ⟨0, PdfValue.integer 7, none⟩).1 rfl).1,
    ((c1_accessor_mismatch_split ⟨0, PdfValue.integer 7, none⟩).1 rfl).2,
    ((c1_accessor_mismatch_split ⟨0, PdfValue.integer 7, none⟩).2.1 rfl).1,
    ((c1_accessor_mismatch_split ⟨0, PdfValue.integer 7, none⟩).2.1 rfl).2,
    ((c1_accessor_mismatch_split ⟨0, PdfValue.integer 7, none⟩).2.2.1 rfl).1,
    ((c1_accessor_mismatch_split ⟨0, PdfValue.integer 7, none⟩).2.2.1 rfl).2⟩

/-- C2: handle equality is slot identity — `qpdfEq` is true exactly when
the two handles carry the same `qpdf_oh` slot index; two structurally
identical objects built independently occupy distinct fresh slots and
compare unequal; and the comparison is a function of the slot indices
alone, never of the decoded values or indirection data. -/
theorem c2_eq_slot_identity :
    (∀ a b : Obj, qpdfEq a b = true ↔ a.inner = b.inner) ∧
      (∀ (d : Doc) (v w : PdfValue),
        qpdfEq (allocObj d v none).2 (allocObj (allocObj d v none).1 w none).2 = false) ∧
      (∀ (n m : Nat) (v v' w w' : PdfValue) (og og2 og' og2' : Option (Nat × Nat)),
        qpdfEq ⟨n, v, og⟩ ⟨m, w, og2⟩ = qpdfEq ⟨n, v', og'⟩ ⟨m, w', og2'⟩) := by
  refine ⟨fun a b => by simp [qpdfEq], fun d v w => ?_, fun _ _ _ _ _ _ _ _ _ _ => rfl⟩
  simp only [qpdfEq, allocObj]
  rw [beq_eq_false_iff_ne]
  omega

/-- C3 counterexample: `make_indirect` is not idempotent in `(id,
generation)`.  Starting from an empty document and a direct null handle,
the first application yields object id 1 and the second yields object id
2, so applying it twice does not reproduce the pair obtained by applying
it once — exactly the behaviour the repository's own test asserts with
`assert_ne!(indirect.get_id(), obj.get_id())` on an already-indirect
stream handle. -/
theorem c3_counterexample :
    (get_id (make_indirect (make_indirect ⟨0, 1, []⟩ ⟨0, PdfValue.null, none⟩).1
          (make_indirect ⟨0, 1, []⟩ ⟨0, PdfValue.null, none⟩).2).2,
        get_generation (make_indirect (make_indirect ⟨0, 1, []⟩ ⟨0, PdfValue.null, none⟩).1
          (make_indirect ⟨0, 1, []⟩ ⟨0, PdfValue.null, none⟩).2).2) ≠
      (get_id (make_indirect ⟨0, 1, []⟩ ⟨0, PdfValue.null, none⟩).2,
        get_generation (make_indirect ⟨0, 1, []⟩ ⟨0, PdfValue.null, none⟩).2) := by
  decide

/-- C3 (amended): `make_indirect` always allocates the next unused object
id, so a second application yields a strictly larger id than the first
rather than the same pair; the generation of a freshly indirected object
is 0; and for a direct original (whose own id and generation read as 0)
the new id is nonzero and differs from the original's. -/
theorem c3_make_indirect_fresh (d : Doc) (h : Obj) (hid : 0 < d.nextObjId) :
    get_generation (make_indirect d h).2 = 0 ∧
      get_id (make_indirect d h).2 = d.nextObjId ∧
      get_id (make_indirect d h).2 ≠ 0 ∧
      get_id (make_indirect (make_indirect d h).1 (make_indirect d h).2).2 = d.nextObjId + 1 ∧
      get_id (make_indirect (make_indirect d h).1 (make_indirect d h).2).2 ≠
        get_id (make_indirect d h).2 ∧
      (h.objgen = none →
        get_id h = 0 ∧ get_generation h = 0 ∧ get_id (make_indirect d h).2 ≠ get_id h) := by
  refine ⟨rfl, rfl, ?_, rfl, ?_, fun hog => ⟨?_, ?_, ?_⟩⟩
  · show d.nextObjId ≠ 0
    omega
  · show d.nextObjId + 1 ≠ d.nextObjId
    omega
  · simp [get_id, hog]
  · simp [get_generation, hog]
  · show d.nextObjId ≠ get_id h
    simp [get_id, hog]
    omega

/-- C3 witness: the amended theorem applied to an empty document and a
concrete direct null handle. -/
theorem c3_witness :
    0 < (⟨0, 1, []⟩ : Doc).nextObjId ∧
      get_id (make_indirect ⟨0, 1, []⟩ ⟨0, PdfValue.null, none⟩).2 = 1 :=
  ⟨by decide,
    (c3_make_indirect_fresh ⟨0, 1, []⟩ ⟨0, PdfValue.null, none⟩ (by decide)).2.1⟩

/-- C4: a string handle built from the UTF-8 text "привет" reads back in
binary (unparsed) form as the UTF-16BE-with-BOM hex
`<feff043f04400438043204350442>`; its stored bytes are the
UTF-16BE-with-BOM encoding, which differs from the original UTF-8
bytes. -/
theorem c4_utf8_string_binary (d : Doc) :
    to_binary (new_utf8_string d "привет").2 = "<feff043f04400438043204350442>" ∧
      as_binary_string (new_utf8_string d "привет").2 =
        [0xfe, 0xff, 0x04, 0x3f, 0x04, 0x40, 0x04, 0x38, 0x04, 0x32, 0x04, 0x35, 0x04, 0x42] ∧
      as_binary_string (new_utf8_string d "привет").2 ≠ utf8EncodeStr "привет" := by
  refine ⟨by rfl, by rfl, ?_⟩
  show utf8ToUtf16be "привет" ≠ utf8EncodeStr "привет"
  decide

/-- C5: a binary string handle round-trips arbitrary byte sequences
exactly through `as_binary_string`, and `to_binary` of the bytes
`[1, 2, 3, 4]` renders the hex form `<01020304>`. -/
theorem c5_binary_string_roundtrip :
    (∀ (d : Doc) (bs : List Nat), as_binary_string (new_binary_string d bs).2 = bs) ∧
      (∀ d : Doc, to_binary (new_binary_string d [1, 2, 3, 4]).2 = "<01020304>") :=
  ⟨fun _ _ => rfl, fun _ => rfl⟩

/-- C6: structural absence is an optional result, never an error: an array
access at an index at or past the length is `none`, a dictionary access at
an absent key is `none`, and `get_object_by_id` is `none` when no object
with the given `(id, generation)` identity exists in the table — no
placeholder is constructed. -/
theorem c6_absence_is_optional :
    (∀ (i : Nat) (og : Option (Nat × Nat)) (xs : List PdfValue) (ix : Nat),
        xs.length ≤ ix → arr_get ⟨i, .array xs, og⟩ ix = none) ∧
      (∀ (i : Nat) (og : Option (Nat × Nat)) (es : List (String × PdfValue)) (k : String),
        (∀ e ∈ es, e.1 ≠ k) → dict_get ⟨i, .dictionary es, og⟩ k = none) ∧
      (∀ (d : Doc) (id gen : Nat),
        (∀ p ∈ d.table, p.1 ≠ (id, gen)) → get_object_by_id d id gen = none) := by
  refine ⟨?_, ?_, ?_⟩
  · intro i og xs ix hix
    simp only [arr_get]
    exact List.get?_eq_none.mpr hix
  · intro i og es k hk
    simp only [dict_get, Option.map_eq_none']
    rw [List.find?_eq_none]
    intro x hx
    simpa using hk x hx
  · intro d id gen hp
    simp only [get_object_by_id, Option.map_eq_none']
    rw [List.find?_eq_none]
    intro x hx
    have hne := hp x hx
    simp only [Bool.and_eq_true, beq_iff_eq, not_and]
    intro h1 h2
    exact hne (Prod.ext h1 h2)

/-- C6 witness: the theorem applied to a one-element array at index 10, a
one-entry dictionary at an absent key, and an empty object table. -/
theorem c6_witness :
    arr_get ⟨0, PdfValue.array [PdfValue.null], none⟩ 10 = none ∧
      dict_get ⟨0, PdfValue.dictionary [("/A", PdfValue.null)], none⟩ "/B" = none ∧
      get_object_by_id ⟨0, 1, []⟩ 1234 1 = none :=
  ⟨c6_absence_is_optional.1 0 none [PdfValue.null] 10 (by decide),
    c6_absence_is_optional.2.1 0 none [("/A", PdfValue.null)] "/B" (by decide),
    c6_absence_is_optional.2.2 ⟨0, 1, []⟩ 1234 1 (by simp)⟩

/-- C7: parsing malformed text yields a `ParseError` value carrying a
position and a message — the stray `--` inside the unbalanced dictionary
of the repository's error test is rejected at position 2, a dictionary
left open is rejected at end of input — and whenever parsing fails the
document is returned exactly as it was, never in a modified state.  The
parser is a total function into `Except`, so no input can make it
panic. -/
theorem c7_parse_errors :
    (∀ d : Doc, ∃ e : ParseError,
        (parse_object d "<<--< /Type -- null >>").1 = .error e ∧
          e.pos = 2 ∧ e.msg = "dictionary key must be a name") ∧
      (∀ d : Doc,
        (parse_object d "<< /A").1 = .error ⟨5, "unexpected end of input"⟩) ∧
      (∀ (d : Doc) (t : String),
        (parse_object d t).1.isOk = false → (parse_object d t).2 = d) := by
  refine ⟨fun d => ⟨⟨2, "dictionary key must be a name"⟩, by rfl, rfl, rfl⟩, fun d => by rfl, ?_⟩
  intro d t hfail
  unfold parse_object at hfail ⊢
  cases hpt : parseTop t with
  | error e => rfl
  | ok v =>
    rw [hpt] at hfail
    simp [Except.isOk, Except.toBool] at hfail

/-- C7 witness: the failure-preservation part applied to a concrete
malformed input and document. -/
theorem c7_witness :
    (parse_object ⟨0, 1, []⟩ "<< /A").1.isOk = false ∧
      (parse_object ⟨0, 1, []⟩ "<< /A").2 = ⟨0, 1, []⟩ :=
  ⟨by decide, c7_parse_errors.2.2 ⟨0, 1, []⟩ "<< /A" (by decide)⟩

/-- C8: `get_type` succeeds on every handle — including uninitialized and
reserved ones — returning exactly the type of the handle's value, and the
panic branch of `from_qpdf_enum` is unreachable for every tag inside the
closed set `0..12`. -/
theorem c8_get_type_total :
    (∀ h : Obj, get_type h = some (typeOf h.value)) ∧
      (∀ tag : Nat, tag ≤ 12 → (from_qpdf_enum tag).isSome = true) := by
  constructor
  · intro h
    obtain ⟨i, v, og⟩ := h
    cases v <;> rfl
  · intro tag htag
    interval_cases tag <;> rfl

/-- C8 witness: the tag-coverage part applied at the reserved tag 1. -/
theorem c8_witness : (1 : Nat) ≤ 12 ∧ (from_qpdf_enum 1).isSome = true :=
  ⟨by decide, c8_get_type_total.2 1 (by decide)⟩

/-- C9: the printable (Display) form renders the PDF textual syntax:
`new_integer(1234567890)` prints as "1234567890", `new_real(1.2345, 3)` as
"1.234", `new_bool(true)` as "true" and `new_null()` as "null". -/
theorem c9_display_syntax (d : Doc) :
    to_string (new_integer d 1234567890).2 = "1234567890" ∧
      to_string (new_real d 12345 4 3).2 = "1.234" ∧
      to_string (new_bool d true).2 = "true" ∧
      to_string (new_null d).2 = "null" := by
  refine ⟨?_, ?_, ?_, ?_⟩
  · show unparseVal (PdfValue.integer 1234567890) = "1234567890"
    simp only [unparseVal]
    rfl
  · show unparseVal (PdfValue.real (formatFixed (roundHalfEven (12345 * 10 ^ 3) (10 ^ 4)) 3)) =
      "1.234"
    simp only [unparseVal]
    rfl
  · show unparseVal (PdfValue.boolean true) = "true"
    simp [unparseVal]
  · show unparseVal PdfValue.null = "null"
    simp [unparseVal]

end QpdfRs
